import Mathlib

/-
Verification of the WPPPY session-controller library (whatsapp_web_py).

Shallow embedding of the Python sources:
  * structures.py — entity normalizers (Contact, Chat, Message, MessageMedia)
  * auth.py       — _dedupe_args, PickleAuth.create_context
  * client.py     — _handle_qr, _handle_synced, _bootstrap_store, destroy,
                    send_message, _emit
Python runtime behaviour relevant to the code (dict.get, attribute errors on
non-dicts, truthiness, `or`, int(), try/except) is modelled explicitly.
-/

namespace Wppy

/-- Python exception kinds that the embedded code can raise. -/
inductive PyErr where
  | attributeError
  | typeError
  | valueError
  | keyError
  | runtimeError
  | fileNotFoundError
  deriving DecidableEq, Repr

/-- Python-like values crossing the Playwright bridge: the payloads handed to
the normalizers and the objects loaded by pickle.  `pynone` is Python `None`. -/
inductive JVal where
  | pynone
  | pystr (s : String)
  | pyint (n : Int)
  | pybool (b : Bool)
  | pylist (items : List JVal)
  | pydict (entries : List (String × JVal))

/-- Python truthiness (`bool(v)`): None, "", 0, False, empty containers are falsy. -/
def JVal.truthy : JVal → Bool
  | .pynone => false
  | .pystr s => s != ""
  | .pyint n => n != 0
  | .pybool b => b
  | .pylist items => !items.isEmpty
  | .pydict entries => !entries.isEmpty

/-- `payload.get(k, default)` on a Python dict (the dict is an entry list;
first binding wins, matching unique-key dicts). -/
def dictGet (entries : List (String × JVal)) (k : String) (default : JVal) : JVal :=
  match entries.find? (fun p => p.1 == k) with
  | some p => p.2
  | none => default

/-- `v.get(k, default)` where `v` is an arbitrary Python value: dicts answer the
lookup, every other value has no `get` attribute and raises AttributeError.
This is the semantics of `payload.get("id", \x7b\x7d).get("_serialized")`. -/
def JVal.pyget (v : JVal) (k : String) (default : JVal) : Except PyErr JVal :=
  match v with
  | .pydict entries => .ok (dictGet entries k default)
  | _ => .error .attributeError

/-- Python `a or b`: `a` when truthy, else `b`. -/
def pyOr (a b : JVal) : JVal :=
  if a.truthy then a else b

/-- Decimal value of a digit character. -/
def digitVal (c : Char) : Option Nat :=
  if '0' ≤ c ∧ c ≤ '9' then some (c.toNat - '0'.toNat) else none

/-- Value of a non-empty all-digit character list, else `none`. -/
def digitsVal (cs : List Char) : Option Nat :=
  if cs.isEmpty then none
  else
    cs.foldl
      (fun acc c =>
        match acc, digitVal c with
        | some a, some d => some (a * 10 + d)
        | _, _ => none)
      (some 0)

/-- Python `int(str)` on a decimal literal: an optional sign followed by at
least one digit (whitespace/underscore stripping is not modelled; the claims
only rely on non-numeric strings raising). -/
def pyIntOfString (s : String) : Option Int :=
  match s.toList with
  | '-' :: rest => (digitsVal rest).map (fun n => -(n : Int))
  | '+' :: rest => (digitsVal rest).map (fun n => (n : Int))
  | cs => (digitsVal cs).map (fun n => (n : Int))

/-- Python `int(v)`: ints pass through, bools coerce, numeric strings parse,
everything else raises (TypeError for None/containers, ValueError for bad
strings). -/
def pyInt : JVal → Except PyErr Int
  | .pyint n => .ok n
  | .pybool b => .ok (if b then 1 else 0)
  | .pystr s =>
      match pyIntOfString s with
      | some n => .ok n
      | none => .error .valueError
  | .pynone => .error .typeError
  | .pylist _ => .error .typeError
  | .pydict _ => .error .typeError

/-- structures.py `Contact`: normalized contact entity. -/
structure Contact where
  id : JVal
  name : JVal
  pushname : JVal
  is_business : Bool
  is_me : Bool
  raw : List (String × JVal)

/-- structures.py `Contact.from_js`:
`wid = payload.get("id", \x7b\x7d).get("_serialized") or payload.get("id")`,
then the dataclass fields with `payload.get` defaults and `bool(...)` casts. -/
def Contact.from_js (payload : List (String × JVal)) : Except PyErr Contact :=
  match (dictGet payload "id" (.pydict [])).pyget "_serialized" .pynone with
  | .error e => .error e
  | .ok wid0 =>
      .ok { id := pyOr wid0 (dictGet payload "id" .pynone)
            name := dictGet payload "name" .pynone
            pushname := dictGet payload "pushname" .pynone
            is_business := (dictGet payload "isBusiness" (.pybool false)).truthy
            is_me := (dictGet payload "isMe" (.pybool false)).truthy
            raw := payload }

/-- structures.py `Chat`: normalized chat entity.  The source annotates
`is_group: bool` but stores `payload.get("isGroup", False)` without a cast,
so the field is kept as a raw value here. -/
structure Chat where
  id : JVal
  name : JVal
  unread_count : Int
  is_group : JVal
  raw : List (String × JVal)

/-- structures.py `Chat.from_js`: same id coalescing, then
`name or formattedTitle or ""`, `int(unreadCount or 0)`,
`payload.get("isGroup", False)`. -/
def Chat.from_js (payload : List (String × JVal)) : Except PyErr Chat :=
  match (dictGet payload "id" (.pydict [])).pyget "_serialized" .pynone with
  | .error e => .error e
  | .ok wid0 =>
      match pyInt (pyOr (dictGet payload "unreadCount" .pynone) (.pyint 0)) with
      | .error e => .error e
      | .ok unread =>
          .ok { id := pyOr wid0 (dictGet payload "id" .pynone)
                name := pyOr (pyOr (dictGet payload "name" .pynone)
                                   (dictGet payload "formattedTitle" .pynone))
                             (.pystr "")
                unread_count := unread
                is_group := dictGet payload "isGroup" (.pybool false)
                raw := payload }

/-- structures.py `Message`: normalized message entity. -/
structure Message where
  id : JVal
  body : JVal
  from_me : Bool
  chat_id : JVal
  timestamp : JVal
  type : JVal
  raw : List (String × JVal)

/-- structures.py `Message.from_js`: id and chat_id coalesced from the nested
id object, `bool(payload.get("id", \x7b\x7d).get("fromMe", payload.get("fromMe",
False)))` (Python evaluates the default argument first), `body or ""`,
`t or timestamp`, `type or messageType-with-default`. -/
def Message.from_js (payload : List (String × JVal)) : Except PyErr Message :=
  match (dictGet payload "id" (.pydict [])).pyget "_serialized" .pynone with
  | .error e => .error e
  | .ok msg_id0 =>
      match (dictGet payload "id" (.pydict [])).pyget "remote" .pynone with
      | .error e => .error e
      | .ok chat_id0 =>
          let fmDefault := dictGet payload "fromMe" (.pybool false)
          match (dictGet payload "id" (.pydict [])).pyget "fromMe" fmDefault with
          | .error e => .error e
          | .ok fm =>
              .ok { id := pyOr msg_id0 (dictGet payload "id" .pynone)
                    body := pyOr (dictGet payload "body" .pynone) (.pystr "")
                    from_me := fm.truthy
                    chat_id := pyOr chat_id0 (dictGet payload "chatId" .pynone)
                    timestamp := pyOr (dictGet payload "t" .pynone)
                                      (dictGet payload "timestamp" .pynone)
                    type := pyOr (dictGet payload "type" .pynone)
                                 (dictGet payload "messageType" (.pystr "unknown"))
                    raw := payload }

/-- True exactly on dict values. -/
def JVal.isPyDict : JVal → Bool
  | .pydict _ => true
  | _ => false

/-- True exactly on int values. -/
def JVal.isPyInt : JVal → Bool
  | .pyint _ => true
  | _ => false

/-- Guard used by the totality theorem: the payload's `id` field, when present,
is a dict (when absent, `payload.get("id", \x7b\x7d)` yields the empty dict). -/
def idFieldIsDict (payload : List (String × JVal)) : Bool :=
  (dictGet payload "id" (.pydict [])).isPyDict

/-- Guard used by the totality theorem: the payload's `unreadCount` field is an
int, or is falsy/absent (so that `int(unreadCount or 0)` sees a literal 0). -/
def unreadCountOk (payload : List (String × JVal)) : Bool :=
  (dictGet payload "unreadCount" .pynone).isPyInt ||
    !(dictGet payload "unreadCount" .pynone).truthy

theorem idFieldIsDict_spec (payload : List (String × JVal))
    (hid : idFieldIsDict payload = true) :
    ∃ l, dictGet payload "id" (.pydict []) = JVal.pydict l := by
  unfold idFieldIsDict at hid
  cases hv : dictGet payload "id" (.pydict []) <;> rw [hv] at hid
  case pydict => exact ⟨_, rfl⟩
  all_goals simp [JVal.isPyDict] at hid

theorem unreadCountOk_spec (payload : List (String × JVal))
    (hun : unreadCountOk payload = true) :
    ∃ n, pyInt (pyOr (dictGet payload "unreadCount" .pynone) (.pyint 0)) = .ok n := by
  unfold unreadCountOk at hun
  cases hv : dictGet payload "unreadCount" .pynone <;> rw [hv] at hun <;>
    simp only [JVal.isPyInt, JVal.truthy, Bool.false_or, Bool.true_or,
      Bool.not_eq_true', Bool.not_eq_false] at hun
  case pynone => exact ⟨0, by simp [pyOr, JVal.truthy, pyInt]⟩
  case pystr s =>
    have hs : s = "" := by simpa using hun
    exact ⟨0, by simp [pyOr, JVal.truthy, hs, pyInt]⟩
  case pyint n =>
    by_cases h0 : n = 0
    · exact ⟨0, by simp [pyOr, JVal.truthy, h0, pyInt]⟩
    · exact ⟨n, by simp [pyOr, JVal.truthy, h0, pyInt]⟩
  case pybool b =>
    exact ⟨0, by simp [pyOr, JVal.truthy, hun, pyInt]⟩
  case pylist items =>
    exact ⟨0, by simp [pyOr, JVal.truthy, hun, pyInt]⟩
  case pydict entries =>
    exact ⟨0, by simp [pyOr, JVal.truthy, hun, pyInt]⟩

/-- C2: the claim says a nested `id = \x7b_serialized: s\x7d` and a flat
`id = s` both normalize to an entity with `id = s`.  The nested shape does,
but on a flat string `payload.get("id", \x7b\x7d)` returns the string itself
and `str` has no `.get`, so all three normalizers raise AttributeError:
the flat-string half of the claim fails on the code. -/
theorem id_coalescing_flat_vs_nested :
    Contact.from_js [("id", JVal.pystr "123@c.us")] = .error .attributeError ∧
    Chat.from_js [("id", JVal.pystr "123@c.us")] = .error .attributeError ∧
    Message.from_js [("id", JVal.pystr "123@c.us")] = .error .attributeError ∧
    Contact.from_js [("id", JVal.pydict [("_serialized", JVal.pystr "123@c.us")])] =
      .ok { id := JVal.pystr "123@c.us", name := JVal.pynone, pushname := JVal.pynone,
            is_business := false, is_me := false,
            raw := [("id", JVal.pydict [("_serialized", JVal.pystr "123@c.us")])] } ∧
    Chat.from_js [("id", JVal.pydict [("_serialized", JVal.pystr "123@c.us")])] =
      .ok { id := JVal.pystr "123@c.us", name := JVal.pystr "", unread_count := 0,
            is_group := JVal.pybool false,
            raw := [("id", JVal.pydict [("_serialized", JVal.pystr "123@c.us")])] } ∧
    Message.from_js [("id", JVal.pydict [("_serialized", JVal.pystr "123@c.us")])] =
      .ok { id := JVal.pystr "123@c.us", body := JVal.pystr "", from_me := false,
            chat_id := JVal.pynone, timestamp := JVal.pynone, type := JVal.pystr "unknown",
            raw := [("id", JVal.pydict [("_serialized", JVal.pystr "123@c.us")])] } :=
  ⟨rfl, rfl, rfl, rfl, rfl, rfl⟩

/-- C3 counterexample: the normalizers are not total on dict payloads, and
absent optional fields are not all defaulted.  `Chat.from_js` raises
ValueError on a non-numeric `unreadCount`, and `Contact.from_js` on an empty
payload propagates `None` for `name` and `pushname` instead of a default. -/
theorem normalizers_not_total_counterexample :
    Chat.from_js [("unreadCount", JVal.pystr "abc")] = .error .valueError ∧
    Contact.from_js [] =
      .ok { id := JVal.pynone, name := JVal.pynone, pushname := JVal.pynone,
            is_business := false, is_me := false, raw := [] } :=
  ⟨rfl, rfl⟩

/-- C3 (amended): when the payload's `id` field is absent or a dict and its
`unreadCount` field is an int or falsy/absent, the three normalizers return
an entity and never raise; on an empty payload Chat gets explicit defaults
(`""`/0/False) and Message gets `""`/False/"unknown", while id, chat_id and
timestamp default to None. -/
theorem normalizers_total_on_guarded_payloads (payload : List (String × JVal))
    (hid : idFieldIsDict payload = true) (hun : unreadCountOk payload = true) :
    (∃ c, Contact.from_js payload = .ok c) ∧
    (∃ ch, Chat.from_js payload = .ok ch) ∧
    (∃ m, Message.from_js payload = .ok m) ∧
    Chat.from_js [] =
      .ok { id := JVal.pynone, name := JVal.pystr "", unread_count := 0,
            is_group := JVal.pybool false, raw := [] } ∧
    Message.from_js [] =
      .ok { id := JVal.pynone, body := JVal.pystr "", from_me := false,
            chat_id := JVal.pynone, timestamp := JVal.pynone,
            type := JVal.pystr "unknown", raw := [] } := by
  obtain ⟨l, hl⟩ := idFieldIsDict_spec payload hid
  obtain ⟨n, hn⟩ := unreadCountOk_spec payload hun
  refine ⟨?_, ?_, ?_, rfl, rfl⟩
  · unfold Contact.from_js
    rw [hl]
    simp only [JVal.pyget]
    exact ⟨_, rfl⟩
  · unfold Chat.from_js
    rw [hl]
    simp only [JVal.pyget]
    rw [hn]
    exact ⟨_, rfl⟩
  · unfold Message.from_js
    rw [hl]
    simp only [JVal.pyget]
    exact ⟨_, rfl⟩

/-- Witness for the amended C3 theorem at a concrete payload. -/
theorem normalizers_total_on_guarded_payloads_witness :
    idFieldIsDict [("name", JVal.pystr "x")] = true ∧
    unreadCountOk [("name", JVal.pystr "x")] = true ∧
    (∃ c, Contact.from_js [("name", JVal.pystr "x")] = .ok c) :=
  ⟨rfl, rfl,
    (normalizers_total_on_guarded_payloads [("name", JVal.pystr "x")] rfl rfl).1⟩

/-- events.py `Events`: the closed set of public event kinds emitted by the
client; payload-carrying kinds keep their payload. -/
inductive Event where
  | qr (code : String)
  | authenticated
  | ready
  | message
  | message_created
  | state_changed (s : String)
  | disconnected (reason : String)
  deriving DecidableEq, Repr

/-- client.py `Client._handle_qr`: given the configured `qr_max_retries` and
the current `_qr_retries` counter, one pairing-reference notification either
emits `DISCONNECTED("qr_max_retries")` (when a nonzero maximum is reached —
`if self.options.qr_max_retries and self._qr_retries >= ...`) or increments
the counter and emits `QR`.  Returns the new counter and the emitted events. -/
def handle_qr (qr_max_retries qr_retries : Nat) (qr : String) : Nat × List Event :=
  if qr_max_retries ≠ 0 ∧ qr_retries ≥ qr_max_retries then
    (qr_retries, [.disconnected "qr_max_retries"])
  else
    (qr_retries + 1, [.qr qr])

/-- Folds `_handle_qr` over a sequence of pairing-reference notifications,
collecting every emitted event in order. -/
def run_qr_notifications (qr_max_retries : Nat) :
    Nat → List String → Nat × List Event
  | qr_retries, [] => (qr_retries, [])
  | qr_retries, r :: rest =>
      let step := handle_qr qr_max_retries qr_retries r
      let restRun := run_qr_notifications qr_max_retries step.1 rest
      (restRun.1, step.2 ++ restRun.2)

/-- True exactly on `QR` events. -/
def Event.isQr : Event → Bool
  | .qr _ => true
  | _ => false

/-- C1: with `qr_max_retries = 2`, three pairing-reference notifications yield
exactly the events `QR q1, QR q2, DISCONNECTED("qr_max_retries")`, and even
with a fourth notification no further `QR` event is emitted. -/
theorem qr_retry_policy (q1 q2 q3 q4 : String) :
    (run_qr_notifications 2 0 [q1, q2, q3]).2 =
      [.qr q1, .qr q2, .disconnected "qr_max_retries"] ∧
    ((run_qr_notifications 2 0 [q1, q2, q3, q4]).2.filter Event.isQr) =
      [.qr q1, .qr q2] := by
  constructor <;> rfl

/-- The `_synced_emitted` and `_store_ready` one-shot flags of client.py
`Client`. -/
structure SyncFlags where
  synced_emitted : Bool
  store_ready : Bool
  deriving DecidableEq, Repr

/-- Observable actions of the synced/bootstrap path: the store-bootstrap
injection (`ExposeStore`/`LoadUtils` evaluation plus message-hook wiring) and
event emissions. -/
inductive Action where
  | inject_store
  | emit (e : Event)
  deriving DecidableEq, Repr

/-- client.py `Client._bootstrap_store` under run-to-completion scheduling:
a no-op when `_store_ready` is set, otherwise it injects the store layer and
sets the flag.  (The interleaved version with explicit await points is
`bootStep` below.) -/
def bootstrap_store (st : SyncFlags) : SyncFlags × List Action :=
  if st.store_ready then (st, [])
  else ({ st with store_ready := true }, [.inject_store])

/-- client.py `Client._handle_synced`: returns immediately when
`_synced_emitted` is set; otherwise sets it, bootstraps the store, then emits
`AUTHENTICATED` and `READY`, in that order. -/
def handle_synced (st : SyncFlags) : SyncFlags × List Action :=
  if st.synced_emitted then (st, [])
  else
    let st1 : SyncFlags := { st with synced_emitted := true }
    let boot := bootstrap_store st1
    (boot.1, boot.2 ++ [.emit .authenticated, .emit .ready])

/-- C4: delivering "synced" twice from the initial state performs, on the
first delivery, the store bootstrap then `AUTHENTICATED` then `READY` in that
order, and nothing on the second delivery: exactly one of each. -/
theorem synced_idempotent :
    (handle_synced ⟨false, false⟩).2 =
      [.inject_store, .emit .authenticated, .emit .ready] ∧
    (handle_synced (handle_synced ⟨false, false⟩).1).2 = [] ∧
    (handle_synced ⟨false, false⟩).1 = ⟨true, true⟩ :=
  ⟨rfl, rfl, rfl⟩

/-- Cooperative interleaving of client.py `_bootstrap_store`: shared state
plus one program counter per asyncio task running the method.  Each await in
the source is a separate atomic step, so the scheduler may switch tasks at
any of them:
pc 0 = the `if self._store_ready: return` check,
pc 1 = `evaluate(ExposeStore)` (the store injection, counted),
pc 2 = `evaluate(LoadUtils)`, pc 3/4 = the two `expose_function` calls,
pc 5 = `evaluate` of the message hook, pc 6 = `self._store_ready = True`,
pc 7 = returned. -/
structure BootSys where
  store_ready : Bool
  injections : Nat
  threads : List Nat
  deriving DecidableEq, Repr

/-- One scheduler step: task `i` (if it exists) executes its next atomic
segment of `_bootstrap_store`. -/
def bootStep (sys : BootSys) (i : Nat) : BootSys :=
  match sys.threads[i]? with
  | none => sys
  | some pc =>
      if pc = 0 then
        if sys.store_ready then { sys with threads := sys.threads.set i 7 }
        else { sys with threads := sys.threads.set i 1 }
      else if pc = 1 then
        { sys with injections := sys.injections + 1, threads := sys.threads.set i 2 }
      else if pc ≤ 5 then { sys with threads := sys.threads.set i (pc + 1) }
      else if pc = 6 then
        { sys with store_ready := true, threads := sys.threads.set i 7 }
      else sys

/-- Runs a schedule (a list of task indices) from a system state. -/
def bootRun (sys : BootSys) : List Nat → BootSys
  | [] => sys
  | i :: rest => bootRun (bootStep sys i) rest

/-- Two tasks about to enter `_bootstrap_store` with the flag clear: the
public API path and the internal sync handler. -/
def bootInit : BootSys := { store_ready := false, injections := 0, threads := [0, 0] }

/-- C5 counterexample: the flag check-and-set is not a single critical
section.  If the second task runs its `_store_ready` check after the first
task's check but before the first task sets the flag (which only happens
after four awaited engine calls), both tasks inject the store: two
injections under a concrete interleaving. -/
theorem bootstrap_race_double_injection :
    (bootRun bootInit [0, 1, 0, 0, 0, 0, 0, 0, 1, 1, 1, 1, 1, 1]).injections = 2 ∧
    (bootRun bootInit [0, 1, 0, 0, 0, 0, 0, 0, 1, 1, 1, 1, 1, 1]).threads = [7, 7] :=
  ⟨rfl, rfl⟩

theorem bootRun_no_new_injections (sched : List Nat) (sys : BootSys)
    (h1 : sys.store_ready = true) (h2 : ∀ pc ∈ sys.threads, pc = 0 ∨ pc = 7) :
    (bootRun sys sched).injections = sys.injections := by
  induction sched generalizing sys with
  | nil => rfl
  | cons i rest ih =>
      have hstep : (bootStep sys i).injections = sys.injections ∧
          (bootStep sys i).store_ready = true ∧
          ∀ pc ∈ (bootStep sys i).threads, pc = 0 ∨ pc = 7 := by
        unfold bootStep
        cases hg : sys.threads[i]? with
        | none => exact ⟨rfl, h1, h2⟩
        | some pc =>
            rcases h2 pc (List.getElem?_mem hg) with h0 | h7
            · subst h0
              refine ⟨by simp [h1], by simp [h1], ?_⟩
              intro q hq
              simp only [if_pos rfl, h1, if_true] at hq ⊢
              rcases List.mem_or_eq_of_mem_set hq with hmem | h7q
              · exact h2 q hmem
              · exact Or.inr h7q
            · subst h7
              exact ⟨by norm_num, by norm_num [h1], by norm_num; exact h2⟩
      calc (bootRun (bootStep sys i) rest).injections
          = (bootStep sys i).injections := ih _ hstep.2.1 hstep.2.2
        _ = sys.injections := hstep.1

/-- C5 (amended): the idempotent gate only holds for non-overlapping calls.
Once the first caller of `_bootstrap_store` has run to completion (its seven
steps), the flag is set, and under every subsequent schedule of the second
caller the injection count stays exactly one: the second caller observes the
flag and returns without re-injecting. -/
theorem bootstrap_sequential_single_injection (sched : List Nat) :
    (bootRun (bootRun bootInit [0, 0, 0, 0, 0, 0, 0]) sched).injections = 1 := by
  have h : bootRun bootInit [0, 0, 0, 0, 0, 0, 0] =
      { store_ready := true, injections := 1, threads := [7, 0] } := rfl
  rw [h]
  exact bootRun_no_new_injections sched _ rfl (by decide)

/-- The RFC 4648 base64 alphabet used by Python's `base64.b64encode`. -/
def b64Alphabet : String :=
  "ABCDEFGHIJKLMNOPQRSTUVWXYZabcdefghijklmnopqrstuvwxyz0123456789+/"

/-- Character for a 6-bit group. -/
def b64Char (n : Nat) : Char := b64Alphabet.toList.getD n 'A'

/-- `base64.b64encode` on a byte list (each byte taken mod 256), with `=`
padding. -/
def base64Encode : List Nat → String
  | [] => ""
  | [a] =>
      let a := a % 256
      String.mk [b64Char (a / 4), b64Char (a % 4 * 16)] ++ "=="
  | [a, b] =>
      let a := a % 256
      let b := b % 256
      String.mk [b64Char (a / 4), b64Char (a % 4 * 16 + b / 16),
                 b64Char (b % 16 * 4)] ++ "="
  | a :: b :: c :: rest =>
      let a := a % 256
      let b := b % 256
      let c := c % 256
      String.mk [b64Char (a / 4), b64Char (a % 4 * 16 + b / 16),
                 b64Char (b % 16 * 4 + c / 64), b64Char (c % 64)] ++
        base64Encode rest

/-- structures.py `MessageMedia`. -/
structure MessageMedia where
  mimetype : String
  data : String
  filename : Option String
  filesize : Option Nat
  deriving DecidableEq, Repr

/-- structures.py `MessageMedia.from_file`.  The filesystem is a map from
paths to the byte contents of existing regular files (`none` models
`Path.is_file()` false: missing path, directory, or special file);
`guess_type` models `mimetypes.guess_type(path.name)[0]` and `baseName`
models `Path(file_path).name`.  `st_size` of a regular file equals its byte
length. -/
def MessageMedia.from_file (fs : String → Option (List Nat))
    (guess_type : String → Option String) (baseName : String → String)
    (file_path : String) : Except PyErr MessageMedia :=
  match fs file_path with
  | none => .error .fileNotFoundError
  | some bytes =>
      .ok { mimetype := (guess_type (baseName file_path)).getD "application/octet-stream"
            data := base64Encode bytes
            filename := some (baseName file_path)
            filesize := some bytes.length }

/-- C10: `from_file` raises FileNotFoundError exactly on paths that are not
existing regular files; on an existing file it returns the base64 encoding
of the bytes, with the mimetype defaulting to application/octet-stream when
no type can be guessed from the name. -/
theorem from_file_spec (fs : String → Option (List Nat))
    (guess_type : String → Option String) (baseName : String → String)
    (p : String) :
    (fs p = none → MessageMedia.from_file fs guess_type baseName p =
      .error .fileNotFoundError) ∧
    (∀ bytes, fs p = some bytes →
      MessageMedia.from_file fs guess_type baseName p =
        .ok { mimetype := (guess_type (baseName p)).getD "application/octet-stream"
              data := base64Encode bytes
              filename := some (baseName p)
              filesize := some bytes.length }) := by
  constructor
  · intro h
    simp [MessageMedia.from_file, h]
  · intro bytes h
    simp [MessageMedia.from_file, h]

/-- Witness for C10 on a one-point filesystem: the missing path raises, and
the two-byte file "hi" encodes to "aGk=" with the fallback mimetype. -/
theorem from_file_spec_witness :
    MessageMedia.from_file (fun _ => none) (fun _ => none) id "a.bin" =
      .error .fileNotFoundError ∧
    MessageMedia.from_file (fun _ => some [104, 105]) (fun _ => none) id "a.bin" =
      .ok { mimetype := "application/octet-stream", data := "aGk=",
            filename := some "a.bin", filesize := some 2 } := by
  constructor
  · exact (from_file_spec (fun _ => none) (fun _ => none) id "a.bin").1 rfl
  · have h := (from_file_spec (fun _ => some [104, 105]) (fun _ => none) id
      "a.bin").2 [104, 105] rfl
    rw [h]
    rfl

/-- What the teardown collaborators would do if called during client.py
`Client.destroy`: `context.close()`, `playwright.stop()`,
`auth_strategy.destroy()`. -/
structure DestroyEnv where
  close_context : Except PyErr Unit
  stop_playwright : Except PyErr Unit
  auth_destroy : Except PyErr Unit

/-- The `self.context` / `self.playwright` handles of the client (set, or
already None). -/
structure Handles where
  has_context : Bool
  has_playwright : Bool
  deriving DecidableEq, Repr

/-- Python `try: body except Exception: pass` around one teardown step: when
the body raises, execution continues with the state as of the raise point
(the `= None` assignment after a failed call is skipped). -/
def tryPass (body : Except PyErr Handles) (at_raise : Handles) : Except PyErr Handles :=
  match body with
  | .ok st => .ok st
  | .error _ => .ok at_raise

theorem tryPass_ok (body : Except PyErr Handles) (at_raise : Handles) :
    ∃ st, tryPass body at_raise = .ok st := by
  cases body <;> exact ⟨_, rfl⟩

/-- client.py `Client.destroy`: three independent best-effort teardown steps —
close the context, stop playwright, destroy the auth strategy — each wrapped
in its own `try/except Exception: pass`. -/
def destroy (env : DestroyEnv) (st : Handles) : Except PyErr Handles := do
  let st1 ← tryPass
    (if st.has_context then
        match env.close_context with
        | .ok _ => .ok { st with has_context := false }
        | .error e => .error e
      else .ok st) st
  let st2 ← tryPass
    (if st1.has_playwright then
        match env.stop_playwright with
        | .ok _ => .ok { st1 with has_playwright := false }
        | .error e => .error e
      else .ok st1) st1
  let st3 ← tryPass
    (match env.auth_destroy with
     | .ok _ => .ok st2
     | .error e => .error e) st2
  return st3

/-- Engine-evaluation outcomes consumed by `_bootstrap_store` and
`send_message`. -/
structure EngineEnv where
  eval_store_script : Except PyErr Unit
  eval_utils_script : Except PyErr Unit
  expose_message_fn : Except PyErr Unit
  expose_message_created_fn : Except PyErr Unit
  eval_message_hook : Except PyErr Unit
  eval_send : String → Except PyErr JVal

/-- The page handle and store flag read by the request operations. -/
structure PageSt where
  has_page : Bool
  store_ready : Bool
  deriving DecidableEq, Repr

/-- client.py `Client._bootstrap_store` with a fallible engine, sequential
run: returns at once when `_store_ready` is set; `self.page.evaluate` with no
page is Python `None.evaluate` (AttributeError); engine errors propagate —
the source has no try/except here. -/
def client_bootstrap_store (env : EngineEnv) (st : PageSt) : Except PyErr PageSt :=
  if st.store_ready then .ok st
  else if !st.has_page then .error .attributeError
  else
    match env.eval_store_script with
    | .error e => .error e
    | .ok _ =>
        match env.eval_utils_script with
        | .error e => .error e
        | .ok _ =>
            match env.expose_message_fn with
            | .error e => .error e
            | .ok _ =>
                match env.expose_message_created_fn with
                | .error e => .error e
                | .ok _ =>
                    match env.eval_message_hook with
                    | .error e => .error e
                    | .ok _ => .ok { st with store_ready := true }

/-- client.py `Client.send_message`: raises RuntimeError when `self.page` is
unset, else bootstraps the store, marshals the content (a MessageMedia
becomes an empty body plus a media option — no fallible step), evaluates
`WWebJS.sendMessage`, and normalizes a truthy result (calling
`Message.from_js`, which needs a dict). -/
def send_message (env : EngineEnv) (st : PageSt) (content : String ⊕ MessageMedia) :
    Except PyErr (PageSt × Option Message) :=
  if !st.has_page then .error .runtimeError
  else
    match client_bootstrap_store env st with
    | .error e => .error e
    | .ok st1 =>
        let payload : String :=
          match content with
          | .inl s => s
          | .inr _ => ""
        match env.eval_send payload with
        | .error e => .error e
        | .ok msg =>
            if msg.truthy then
              match msg with
              | .pydict entries =>
                  match Message.from_js entries with
                  | .error e => .error e
                  | .ok m => .ok (st1, some m)
              | _ => .error .attributeError
            else .ok (st1, none)

/-- C6 counterexample: a public operation other than `initialize` raises —
`send_message` on a never-initialized client raises RuntimeError even with a
fully cooperative engine. -/
theorem send_message_unready_client_raises :
    send_message
      ⟨.ok (), .ok (), .ok (), .ok (), .ok (), fun _ => .ok .pynone⟩
      ⟨false, false⟩ (.inl "hello") = .error .runtimeError := rfl

/-- C6 (amended): `destroy` never raises — every teardown outcome is
swallowed by its own except block — but the public API is not otherwise
error-free: `send_message` raises RuntimeError whenever the page handle is
absent, for every engine behavior and content. -/
theorem destroy_total_send_message_guard (denv : DestroyEnv) (st : Handles)
    (env : EngineEnv) (pst : PageSt) (content : String ⊕ MessageMedia)
    (hp : pst.has_page = false) :
    (∃ st', destroy denv st = .ok st') ∧
    send_message env pst content = .error .runtimeError := by
  constructor
  · obtain ⟨cc, sp, ad⟩ := denv
    obtain ⟨hc, hpw⟩ := st
    cases cc <;> cases sp <;> cases ad <;> cases hc <;> cases hpw <;>
      exact ⟨_, rfl⟩
  · unfold send_message
    rw [hp]
    rfl

/-- Witness for the amended C6 theorem: a concrete client whose every
teardown step fails still destroys cleanly, and `send_message` before
initialize raises RuntimeError. -/
theorem destroy_total_send_message_guard_witness :
    (∃ st', destroy ⟨.error .runtimeError, .error .typeError, .error .valueError⟩
      ⟨true, true⟩ = .ok st') ∧
    send_message
      ⟨.error .typeError, .ok (), .ok (), .ok (), .ok (), fun _ => .ok .pynone⟩
      ⟨false, false⟩ (.inl "hi") = .error .runtimeError :=
  destroy_total_send_message_guard
    ⟨.error .runtimeError, .error .typeError, .error .valueError⟩ ⟨true, true⟩
    ⟨.error .typeError, .ok (), .ok (), .ok (), .ok (), fun _ => .ok .pynone⟩
    ⟨false, false⟩ (.inl "hi") rfl

/-- Python `k in v` membership test as used on the unpickled object: a key
test on dicts; on any non-dict the restore block ends up raising into its
catch-all handler, modelled as TypeError here. -/
def pyIn (k : String) (v : JVal) : Except PyErr Bool :=
  match v with
  | .pydict entries => .ok (entries.any (fun p => p.1 == k))
  | _ => .error .typeError

/-- Python `v[k]` subscription. -/
def pyIndex (v : JVal) (k : String) : Except PyErr JVal :=
  match v with
  | .pydict entries =>
      match entries.find? (fun p => p.1 == k) with
      | some p => .ok p.2
      | none => .error .keyError
  | _ => .error .typeError

/-- Number of cookies in a loaded `storage_state["cookies"]` value. -/
def jListLen : JVal → Nat
  | .pylist items => items.length
  | _ => 0

/-- Number of key/value pairs the injected replay script would set from an
`origin_data["localStorage"]` dict (`Object.entries(items)`). -/
def jDictLen : JVal → Nat
  | .pydict entries => entries.length
  | _ => 0

/-- Collaborator outcomes for auth.py `PickleAuth.create_context`: whether
the pickle file exists, what `pickle.load` would yield, what
`launch_persistent_context` yields (a context handle), what
`context.add_cookies` does, and the outcome of `page.evaluate` on each open
page. -/
structure PickleEnv where
  file_exists : Bool
  pickle_load : Except PyErr JVal
  launch : Except PyErr Nat
  add_cookies : Except PyErr Unit
  pages : List (Except PyErr Unit)

/-- auth.py `PickleAuth.create_context` load phase: `storage_state` stays
None unless the pickle file exists and `pickle.load` succeeds — the
`except Exception` arm logs a warning and keeps None. -/
def pickle_load_state (env : PickleEnv) : Option JVal :=
  if env.file_exists then
    match env.pickle_load with
    | .ok v => some v
    | .error _ => none
  else none

/-- The per-page replay loop for one origin: each `page.evaluate` is wrapped
in its own `try/except` that only logs, so a failing page is skipped and a
successful page restores all items of the origin. -/
def restore_origin_pages (pages : List (Except PyErr Unit)) (nItems : Nat) : Nat :=
  pages.foldl
    (fun acc pe =>
      match pe with
      | .ok _ => acc + nItems
      | .error _ => acc)
    0

/-- The `for origin_data in storage_state["origins"]` loop: returns the
number of storage entries restored and whether a raise aborted the loop into
the outer except handler (keeping the entries already restored). -/
def restore_origins (env : PickleEnv) : List JVal → Nat × Bool
  | [] => (0, false)
  | od :: rest =>
      match pyIn "localStorage" od with
      | .error _ => (0, true)
      | .ok false => restore_origins env rest
      | .ok true =>
          match pyIndex od "localStorage" with
          | .error _ => (0, true)
          | .ok items =>
              let got := restore_origin_pages env.pages (jDictLen items)
              let restRun := restore_origins env rest
              (got + restRun.1, restRun.2)

/-- auth.py `PickleAuth.create_context` restore block, one outer
`try/except Exception` that only logs: add the cookies if the snapshot has
a `cookies` key, then replay each origin's localStorage.  Returns (cookies
restored, storage entries restored); a raise keeps what was already
restored (a raise on the cookie step leaves the engine with none). -/
def restore_snapshot (env : PickleEnv) (ss : JVal) : Nat × Nat :=
  match pyIn "cookies" ss with
  | .error _ => (0, 0)
  | .ok hasCk =>
      let ck : Except PyErr Nat :=
        if hasCk then
          match pyIndex ss "cookies" with
          | .error e => .error e
          | .ok cks =>
              match env.add_cookies with
              | .error e => .error e
              | .ok _ => .ok (jListLen cks)
        else .ok 0
      match ck with
      | .error _ => (0, 0)
      | .ok nck =>
          match pyIn "origins" ss with
          | .error _ => (nck, 0)
          | .ok false => (nck, 0)
          | .ok true =>
              match pyIndex ss "origins" with
              | .error _ => (nck, 0)
              | .ok (.pylist ods) => (nck, (restore_origins env ods).1)
              | .ok _ => (nck, 0)

/-- auth.py `PickleAuth.create_context`: load the snapshot (or None), launch
the persistent context (an engine call whose failure propagates), then
`if storage_state:` replay it.  Returns the context handle together with the
number of restored cookies and storage entries. -/
def PickleAuth.create_context (env : PickleEnv) : Except PyErr (Nat × Nat × Nat) :=
  let ss := pickle_load_state env
  match env.launch with
  | .error e => .error e
  | .ok ctx =>
      match ss with
      | none => .ok (ctx, 0, 0)
      | some v =>
          if v.truthy then
            let r := restore_snapshot env v
            .ok (ctx, r.1, r.2)
          else .ok (ctx, 0, 0)

/-- C7: when the snapshot file is missing, or exists but `pickle.load` fails
(corrupt or unreadable), `create_context` still returns the launched
context, with zero restored cookies and zero restored storage entries. -/
theorem pickle_degrades_to_no_credential (env : PickleEnv) (ctx : Nat)
    (hl : env.launch = .ok ctx)
    (hs : env.file_exists = false ∨ ∃ e, env.pickle_load = .error e) :
    PickleAuth.create_context env = .ok (ctx, 0, 0) := by
  have hload : pickle_load_state env = none := by
    rcases hs with h | ⟨e, h⟩
    · simp [pickle_load_state, h]
    · simp [pickle_load_state, h]
  simp [PickleAuth.create_context, hl, hload]

/-- Witness for C7: a present-but-corrupt pickle file (load raises) yields a
context with nothing restored. -/
theorem pickle_degrades_to_no_credential_witness :
    PickleAuth.create_context ⟨true, .error .typeError, .ok 1, .ok (), []⟩ =
      .ok (1, 0, 0) :=
  pickle_degrades_to_no_credential ⟨true, .error .typeError, .ok 1, .ok (), []⟩ 1
    rfl (Or.inr ⟨.typeError, rfl⟩)

/-- One iteration of the auth.py `_dedupe_args` loop:
`if arg not in deduped: deduped.append(arg)`. -/
def dedupeStep (deduped : List String) (arg : String) : List String :=
  if arg ∈ deduped then deduped else deduped ++ [arg]

/-- auth.py `_dedupe_args`: removes duplicates preserving first-seen order
(`args or []` turns None into an empty iteration).  Both
`LocalAuth.create_context` and `PickleAuth.create_context` pass exactly
`_dedupe_args(args)` to `launch_persistent_context`. -/
def _dedupe_args (args : List String) : List String :=
  args.foldl dedupeStep []

theorem dedupe_foldl_append (l : List String) (acc : List String) :
    ∃ t, l.foldl dedupeStep acc = acc ++ t ∧ t.Sublist l := by
  induction l generalizing acc with
  | nil => exact ⟨[], by simp⟩
  | cons a rest ih =>
      by_cases ha : a ∈ acc
      · obtain ⟨t, ht, hs⟩ := ih acc
        refine ⟨t, ?_, hs.cons a⟩
        simpa [dedupeStep, ha] using ht
      · obtain ⟨t, ht, hs⟩ := ih (acc ++ [a])
        refine ⟨a :: t, ?_, hs.cons₂ a⟩
        simp only [List.foldl_cons, dedupeStep, ha, if_neg, if_false]
        rw [ht]
        simp

theorem dedupe_foldl_nodup (l : List String) (acc : List String)
    (hacc : acc.Nodup) : (l.foldl dedupeStep acc).Nodup := by
  induction l generalizing acc with
  | nil => exact hacc
  | cons a rest ih =>
      by_cases ha : a ∈ acc
      · simpa [dedupeStep, ha] using ih acc hacc
      · have hacc2 : (acc ++ [a]).Nodup := by
          simp [List.nodup_append, hacc, ha]
        simpa [dedupeStep, ha] using ih (acc ++ [a]) hacc2

theorem dedupe_foldl_mem (l : List String) (acc : List String) (x : String) :
    x ∈ l.foldl dedupeStep acc ↔ x ∈ acc ∨ x ∈ l := by
  induction l generalizing acc with
  | nil => simp
  | cons a rest ih =>
      by_cases ha : a ∈ acc
      · simp only [List.foldl_cons, dedupeStep, ha, if_pos, List.mem_cons, ih]
        constructor
        · rintro (h | h)
          · exact Or.inl h
          · exact Or.inr (Or.inr h)
        · rintro (h | rfl | h)
          · exact Or.inl h
          · exact Or.inl ha
          · exact Or.inr h
      · simp only [List.foldl_cons, dedupeStep, ha, if_neg, if_false,
          List.mem_cons, ih, List.mem_append, List.mem_singleton]
        tauto

/-- C9: `_dedupe_args` — the argument list both auth strategies forward to
the engine — is duplicate-free, keeps exactly the elements of the input, is
a sublist of the input (first-seen order preserved), and in particular maps
`["--a", "--b", "--a"]` to `["--a", "--b"]`. -/
theorem dedupe_args_spec (args : List String) :
    (_dedupe_args args).Nodup ∧
    (∀ x, x ∈ _dedupe_args args ↔ x ∈ args) ∧
    (_dedupe_args args).Sublist args ∧
    _dedupe_args ["--a", "--b", "--a"] = ["--a", "--b"] := by
  refine ⟨dedupe_foldl_nodup args [] List.nodup_nil, fun x => ?_, ?_, rfl⟩
  · simpa [_dedupe_args] using dedupe_foldl_mem args [] x
  · obtain ⟨t, ht, hs⟩ := dedupe_foldl_append args []
    unfold _dedupe_args
    rw [ht]
    simpa using hs

/-- Modelled from the spec: the event bus behind `Client._emit` is pyee's
AsyncIOEventEmitter, which is not part of this repository's sources.  Per
the spec's EventBus contract, an `emit` call either raises, returns a plain
value, or returns an awaitable that completes the suspending handlers and
may itself raise; `EmitRet` is that interface, quantified over in the
theorem. -/
inductive EmitRet where
  | plain
  | coro (awaitResult : Except PyErr Unit)

/-- Steps observable at the `_emit` boundary. -/
inductive EmitStep where
  | called_emit
  | awaited_coroutine
  | logged (e : PyErr)
  deriving DecidableEq, Repr

/-- client.py `Client._emit`: `result = self.emit(event, *args)`; if
`asyncio.iscoroutine(result)` it is awaited; the whole body sits in a
`try/except Exception` that logs via `logger.exception`.  The value is the
trace of what happened — the function completes on every behavior. -/
def _emit (behavior : Except PyErr EmitRet) : List EmitStep :=
  match behavior with
  | .error e => [.called_emit, .logged e]
  | .ok .plain => [.called_emit]
  | .ok (.coro (.ok _)) => [.called_emit, .awaited_coroutine]
  | .ok (.coro (.error e)) => [.called_emit, .awaited_coroutine, .logged e]

/-- The exception an emission produces, if any: from the `emit` call itself
or from awaiting the coroutine it returned. -/
def emission_error : Except PyErr EmitRet → Option PyErr
  | .error e => some e
  | .ok (.coro (.error e)) => some e
  | _ => none

/-- C8: for every behavior of the underlying bus, `_emit` awaits a returned
coroutine before completing, and an exception raised anywhere in the
emission appears in the log and is never propagated — when the emission
raises nothing, nothing is logged either. -/
theorem emit_awaits_and_isolates (b : Except PyErr EmitRet) :
    (∀ r, b = .ok (.coro r) → EmitStep.awaited_coroutine ∈ _emit b) ∧
    (∀ e, emission_error b = some e → EmitStep.logged e ∈ _emit b) ∧
    (emission_error b = none → ∀ e, EmitStep.logged e ∉ _emit b) := by
  rcases b with e | r
  · refine ⟨?_, ?_, ?_⟩
    · intro r h
      cases h
    · intro e2 h
      simp only [emission_error, Option.some.injEq] at h
      subst h
      simp [_emit]
    · intro h
      simp [emission_error] at h
  · rcases r with _ | ar
    · refine ⟨?_, ?_, ?_⟩
      · intro r h
        cases h
      · intro e h
        simp [emission_error] at h
      · intro _ e
        simp [_emit]
    · rcases ar with e | u
      · refine ⟨?_, ?_, ?_⟩
        · intro r _
          simp [_emit]
        · intro e2 h
          simp only [emission_error, Option.some.injEq] at h
          subst h
          simp [_emit]
        · intro h
          simp [emission_error] at h
      · refine ⟨?_, ?_, ?_⟩
        · intro r _
          simp [_emit]
        · intro e h
          simp [emission_error] at h
        · intro _ e
          simp [_emit]

/-- Witness for C8: a bus whose returned coroutine raises is awaited and its
error is logged. -/
theorem emit_awaits_and_isolates_witness :
    EmitStep.awaited_coroutine ∈ _emit (.ok (.coro (.error .runtimeError))) ∧
    EmitStep.logged .runtimeError ∈ _emit (.ok (.coro (.error .runtimeError))) :=
  ⟨(emit_awaits_and_isolates (.ok (.coro (.error .runtimeError)))).1 _ rfl,
   (emit_awaits_and_isolates (.ok (.coro (.error .runtimeError)))).2.1 _ rfl⟩

end Wppy
